import Mathlib

/-!
Verification development for the correlation analysis engine of the
Krio-Data-Weaver repository (backend/services/correlation_service.py and
backend/models/correlation.py).

Modelling conventions:
* timestamps are integers counting seconds (12 hours = 43200 s, 1 day = 86400 s);
* numeric sample values are rationals (`ℚ`); a float `NaN` outcome is the
  dedicated constructor `RVal.nan`;
* a pandas missing value (`None` / `NaN` cell) is `Option.none`;
* `scipy.stats.pearsonr` is an external collaborator and is passed in as an
  explicit function parameter returning `Except Unit (RVal × RVal)` (an
  `Except.error` models a raised exception, caught by the service's
  `try/except` block);
* database persistence is an external collaborator modelled by a boolean
  `persistOk` parameter (`false` models `db.session.commit` raising).
-/

/-- A float result that may be NaN (as produced by scipy on degenerate input). -/
inductive RVal where
  | nan : RVal
  | val : ℚ → RVal
deriving DecidableEq

/-- WeatherData row as read by the service (models/weather.py: all of
temperature, humidity, wind_speed are NOT NULL; precipitation defaults to 0). -/
structure WeatherData where
  timestamp : Int
  temperature : ℚ
  humidity : ℚ
  precipitation : ℚ
  wind_speed : ℚ
deriving DecidableEq

/-- StockData row as read by the service (models/stock.py: all prices and
volume are NOT NULL). -/
structure StockData where
  timestamp : Int
  open_price : ℚ
  close_price : ℚ
  high_price : ℚ
  low_price : ℚ
  volume : ℚ
deriving DecidableEq

/-- StockData.volatility property: `high - low` when both prices are truthy
(nonzero), else 0.0. -/
def StockData.volatility (s : StockData) : ℚ :=
  if s.high_price ≠ 0 ∧ s.low_price ≠ 0 then s.high_price - s.low_price else 0

/-- StockData.daily_change property: `close - open` when both are truthy
(nonzero), else 0.0. -/
def StockData.daily_change (s : StockData) : ℚ :=
  if s.close_price ≠ 0 ∧ s.open_price ≠ 0 then s.close_price - s.open_price else 0

/-- One row of the weather DataFrame built at the top of align_time_series.
Python truthiness: `float(w.temperature) if w.temperature else None` maps the
value 0 (and only 0, the column being NOT NULL) to missing; precipitation maps
0 to 0.0; humidity is passed through unchanged. -/
structure WeatherRow where
  timestamp : Int
  temperature : Option ℚ
  humidity : Option ℚ
  precipitation : Option ℚ
  wind_speed : Option ℚ
deriving DecidableEq

/-- One row of the stock DataFrame built in align_time_series. -/
structure StockRow where
  timestamp : Int
  close_price : Option ℚ
  volume : Option ℚ
  volatility : Option ℚ
  daily_change : Option ℚ
deriving DecidableEq

/-- Row constructor for the weather DataFrame (correlation_service.py lines
46-52), including the Python-truthiness conversions. -/
def weatherRow (w : WeatherData) : WeatherRow :=
  { timestamp := w.timestamp
    temperature := if w.temperature ≠ 0 then some w.temperature else none
    humidity := some w.humidity
    precipitation := if w.precipitation ≠ 0 then some w.precipitation else some 0
    wind_speed := if w.wind_speed ≠ 0 then some w.wind_speed else none }

/-- Row constructor for the stock DataFrame (correlation_service.py lines
54-60). -/
def stockRow (s : StockData) : StockRow :=
  { timestamp := s.timestamp
    close_price := if s.close_price ≠ 0 then some s.close_price else none
    volume := some s.volume
    volatility := some s.volatility
    daily_change := some s.daily_change }

/-- One row of the merged (aligned) DataFrame: the weather columns plus the
stock columns brought in by merge_asof (missing when the row had no match). -/
structure AlignedRow where
  timestamp : Int
  temperature : Option ℚ
  humidity : Option ℚ
  precipitation : Option ℚ
  wind_speed : Option ℚ
  close_price : Option ℚ
  volume : Option ℚ
  volatility : Option ℚ
  daily_change : Option ℚ
deriving DecidableEq

/-- Stable insertion of an element into a list ordered by an integer key. -/
def insertByTime (key : α → Int) (x : α) : List α → List α
  | [] => [x]
  | y :: ys => if key y ≤ key x then y :: insertByTime key x ys else x :: y :: ys

/-- Stable sort by an integer key (models DataFrame.sort_index, which is a
stable sort on the timestamp index). -/
def sortByTime (key : α → Int) (l : List α) : List α :=
  l.foldl (fun acc x => insertByTime key x acc) []

/-- Rightmost element of a list whose key is ≤ t. On a list sorted by key this
is the backward asof candidate (pandas takes the last of equal keys). -/
def lastLE (key : α → Int) (t : Int) : List α → Option α
  | [] => none
  | x :: xs =>
    match lastLE key t xs with
    | some y => some y
    | none => if key x ≤ t then some x else none

/-- Leftmost element of a list whose key is ≥ t. On a list sorted by key this
is the forward asof candidate. -/
def firstGE (key : α → Int) (t : Int) : List α → Option α
  | [] => none
  | x :: xs => if t ≤ key x then some x else firstGE key t xs

/-- The merge_asof(direction=nearest, tolerance=tol) match for one left key t:
the backward and forward candidates are each kept only within tolerance, and
of the two the nearer wins, an exact tie going to the backward (earlier)
candidate, as in pandas. -/
def nearestWithin (key : α → Int) (tol t : Int) (rs : List α) : Option α :=
  let b := match lastLE key t rs with
           | some y => if t - key y ≤ tol then some y else none
           | none => none
  let f := match firstGE key t rs with
           | some y => if key y - t ≤ tol then some y else none
           | none => none
  match b, f with
  | some yb, some yf => if t - key yb ≤ key yf - t then some yb else some yf
  | some yb, none => some yb
  | none, some yf => some yf
  | none, none => none

/-- Merge one weather row with its asof match (the merged frame keeps the left
frame's timestamp as the on-key column). -/
def mergeRow (w : WeatherRow) (s : Option StockRow) : AlignedRow :=
  { timestamp := w.timestamp
    temperature := w.temperature
    humidity := w.humidity
    precipitation := w.precipitation
    wind_speed := w.wind_speed
    close_price := s.bind (fun r => r.close_price)
    volume := s.bind (fun r => r.volume)
    volatility := s.bind (fun r => r.volatility)
    daily_change := s.bind (fun r => r.daily_change) }

/-- The merged frame before the dropna filter: every (sorted) weather row,
each carrying its nearest stock row within 12 hours (43200 s) if any. -/
def mergedRows (weather : List WeatherData) (stock : List StockData) : List AlignedRow :=
  let ws := sortByTime (fun r => r.timestamp) (weather.map weatherRow)
  let ss := sortByTime (fun r => r.timestamp) (stock.map stockRow)
  ws.map (fun w => mergeRow w (nearestWithin (fun r => r.timestamp) 43200 w.timestamp ss))

/-- CorrelationService.align_time_series (correlation_service.py lines 30-87):
build both frames, return empty if either is empty, sort both, merge_asof with
direction=nearest and a 12 hour tolerance, then drop rows missing temperature
or close_price. -/
def align_time_series (weather : List WeatherData) (stock : List StockData) : List AlignedRow :=
  if weather.isEmpty || stock.isEmpty then []
  else (mergedRows weather stock).filter
    (fun r => r.temperature.isSome && r.close_price.isSome)

/-- Minimum data points for correlation (CorrelationService.min_sample_size). -/
def min_sample_size : Nat := 10

/-- Paired removal of missing values: `mask = not (x.isna() or y.isna())`
applied to both columns at once (they are columns of one frame, so
positionally zipped). -/
def cleanPairs (x y : List (Option ℚ)) : List (ℚ × ℚ) :=
  (x.zip y).filterMap (fun p =>
    match p with
    | (some a, some b) => some (a, b)
    | _ => none)

/-- CorrelationService.calculate_correlation (lines 89-124). `pearsonr` is the
external scipy collaborator; `Except.error` models it raising (the source
catches any exception and returns the neutral (0.0, 1.0)). -/
def calculate_correlation (pearsonr : List ℚ → List ℚ → Except Unit (RVal × RVal))
    (x y : List (Option ℚ)) : RVal × RVal :=
  if x.length < min_sample_size ∨ y.length < min_sample_size then (RVal.val 0, RVal.val 1)
  else if (cleanPairs x y).length < min_sample_size then (RVal.val 0, RVal.val 1)
  else
    match pearsonr ((cleanPairs x y).map Prod.fst) ((cleanPairs x y).map Prod.snd) with
    | Except.ok rp => rp
    | Except.error _ => (RVal.val 0, RVal.val 1)

/-- Non-missing entries of a column together with their positional index
(`series = data[col].dropna()`, which keeps the original index labels). -/
def presentPairs (xs : List (Option ℚ)) : List (Nat × ℚ) :=
  xs.enum.filterMap (fun p =>
    match p.2 with
    | some v => some (p.1, v)
    | none => none)

/-- Values of the non-missing entries of a column. -/
def presentVals (xs : List (Option ℚ)) : List ℚ :=
  (presentPairs xs).map Prod.snd

/-- Mean of a series. -/
def seriesMean (vals : List ℚ) : ℚ := vals.sum / (vals.length : ℚ)

/-- Sum of squared deviations from the mean. -/
def seriesSS (vals : List ℚ) : ℚ :=
  (vals.map (fun v => (v - seriesMean vals) ^ 2)).sum

/-- The anomaly test applied by detect_anomalies to one value of a series:
scipy.stats.zscore uses the default ddof=0 (population standard deviation
σ² = SS/n), and the flag is |z| > 3.0, i.e. (x-μ)² > 9·σ², i.e.
n·(x-μ)² > 9·SS. When SS = 0 the scipy z-scores are NaN and no point is
flagged; the inequality is then false for every x in the series, matching. -/
def zAnomalyPop (vals : List ℚ) (x : ℚ) : Bool :=
  decide (9 * seriesSS vals < (vals.length : ℚ) * (x - seriesMean vals) ^ 2)

/-- Per-column body of the detect_anomalies loop (lines 147-156): drop missing
values, require at least 10 points, flag by z-score, report original indices. -/
def colAnomalies (xs : List (Option ℚ)) : List Nat :=
  let pres := presentPairs xs
  if pres.length < 10 then []
  else ((pres.filter (fun p => zAnomalyPop (pres.map Prod.snd) p.2)).map Prod.fst)

/-- One iteration of the detect_anomalies loop: skip a column absent from the
frame, skip a column with no anomalies (including the under-10-points case,
where colAnomalies is empty), otherwise write its indices into the dict. -/
def detectStep (dataCols : List String) (frame : String → List (Option ℚ))
    (acc : String → Option (List Nat)) (col : String) : String → Option (List Nat) :=
  if col ∈ dataCols then
    if (colAnomalies (frame col)).isEmpty then acc
    else fun c => if c = col then some (colAnomalies (frame col)) else acc c
  else acc

/-- CorrelationService.detect_anomalies (lines 126-162). The returned Python
dict is modelled as a partial map from column name to anomaly indices; a key
is written only when the column exists in the frame and has a nonempty
anomaly list. -/
def detect_anomalies (dataCols : List String) (frame : String → List (Option ℚ))
    (columns : List String) : String → Option (List Nat) :=
  columns.foldl (detectStep dataCols frame) (fun _ => none)

/-- Correlation strength label of generate_insights (lines 190-198). -/
def insightStrength (correlation_value : ℚ) : String :=
  if (0.7 : ℚ) ≤ |correlation_value| then "strong"
  else if (0.4 : ℚ) ≤ |correlation_value| then "moderate"
  else if (0.2 : ℚ) ≤ |correlation_value| then "weak"
  else "very weak"

/-- Correlation direction label of generate_insights (lines 200-209). -/
def insightDirection (correlation_value : ℚ) : String :=
  if (0.05 : ℚ) < correlation_value then "positive"
  else if correlation_value < -(0.05 : ℚ) then "negative"
  else "negligible"

/-- Statistical significance label of generate_insights (lines 211-221). -/
def insightSignificance (p_value : ℚ) : String :=
  if p_value < (0.001 : ℚ) then "very highly significant"
  else if p_value < (0.01 : ℚ) then "highly significant"
  else if p_value < (0.05 : ℚ) then "significant"
  else if p_value < (0.1 : ℚ) then "marginally significant"
  else "not statistically significant"

/-- CorrelationResult.get_significance_category (models/correlation.py lines
67-82); p_value is None only for an unpopulated row. -/
def get_significance_category : Option ℚ → String
  | none => "unknown"
  | some p =>
    if p < (0.001 : ℚ) then "very_high"
    else if p < (0.01 : ℚ) then "high"
    else if p < (0.05 : ℚ) then "medium"
    else if p < (0.1 : ℚ) then "low"
    else "none"

/-- Comparison of a possibly-NaN float against a rational threshold: in IEEE
semantics every comparison with NaN is false. -/
def RVal.ltQ : RVal → ℚ → Bool
  | RVal.nan, _ => false
  | RVal.val q, c => decide (q < c)

/-- Weather variable names accepted by analyze_correlation (columns of the
aligned frame coming from the weather side). -/
inductive WName where
  | temperature | humidity | precipitation | wind_speed
deriving DecidableEq

/-- Stock variable names accepted by analyze_correlation (columns of the
aligned frame coming from the stock side). -/
inductive SName where
  | close_price | volume | volatility | daily_change
deriving DecidableEq

/-- Column projection of the aligned frame for a weather variable. -/
def wcol : WName → AlignedRow → Option ℚ
  | WName.temperature => fun r => r.temperature
  | WName.humidity => fun r => r.humidity
  | WName.precipitation => fun r => r.precipitation
  | WName.wind_speed => fun r => r.wind_speed

/-- Column projection of the aligned frame for a stock variable. -/
def scol : SName → AlignedRow → Option ℚ
  | SName.close_price => fun r => r.close_price
  | SName.volume => fun r => r.volume
  | SName.volatility => fun r => r.volatility
  | SName.daily_change => fun r => r.daily_change

/-- ASCII upper-casing of a symbol string (Python str.upper on ticker
symbols). -/
def toUpperStr (s : String) : String := String.mk (s.data.map Char.toUpper)

/-- The CorrelationResult record as packaged by analyze_correlation (only the
fields the service sets; id and audit timestamps are database defaults). -/
structure CorrelationResult where
  city : String
  symbol : String
  start_date : Int
  end_date : Int
  period_days : Int
  correlation_value : RVal
  p_value : RVal
  sample_size : Nat
  weather_variable : WName
  stock_variable : SName
  significance_level : String
  anomalies_detected : Nat
deriving DecidableEq

/-- Minimum timestamp of a nonempty aligned frame (`aligned_df.timestamp.min()`;
the 0 default is never reached, analyze_correlation guards on emptiness). -/
def tsMin : List Int → Int
  | [] => 0
  | t :: ts => ts.foldl min t

/-- Maximum timestamp of a nonempty aligned frame. -/
def tsMax : List Int → Int
  | [] => 0
  | t :: ts => ts.foldl max t

/-- Significance level string of analyze_correlation (lines 314-321), applied
to the possibly-NaN p-value. -/
def sigLevel (p : RVal) : String :=
  if RVal.ltQ p (0.001 : ℚ) then "p < 0.001"
  else if RVal.ltQ p (0.01 : ℚ) then "p < 0.01"
  else if RVal.ltQ p (0.05 : ℚ) then "p < 0.05"
  else "not significant"

/-- The record built by analyze_correlation (lines 286-338) for a nonempty
aligned frame. anomalies_detected sums the dict values of detect_anomalies
over the two requested columns; since a weather name and a stock name are
always distinct dict keys, the sum is the sum of the two columns' counts. -/
def buildResult (pearsonr : List ℚ → List ℚ → Except Unit (RVal × RVal))
    (city symbol : String) (weather : List WeatherData) (stock : List StockData)
    (wv : WName) (sv : SName) : CorrelationResult :=
  let aligned := align_time_series weather stock
  let rp := calculate_correlation pearsonr (aligned.map (wcol wv)) (aligned.map (scol sv))
  let ts := aligned.map AlignedRow.timestamp
  { city := city
    symbol := toUpperStr symbol
    start_date := tsMin ts
    end_date := tsMax ts
    period_days := Int.fdiv (tsMax ts - tsMin ts) 86400
    correlation_value := rp.1
    p_value := rp.2
    sample_size := aligned.length
    weather_variable := wv
    stock_variable := sv
    significance_level := sigLevel rp.2
    anomalies_detected :=
      (colAnomalies (aligned.map (wcol wv))).length
        + (colAnomalies (aligned.map (scol sv))).length }

/-- Range check of one stored numeric against a CHECK constraint: a NaN never
satisfies the range condition, so the insert of a NaN numeric fails. -/
def rvalWithin : RVal → ℚ → ℚ → Bool
  | RVal.nan, _, _ => false
  | RVal.val q, lo, hi => decide (lo ≤ q) && decide (q ≤ hi)

/-- The CHECK constraints of the correlation_results table
(models/correlation.py lines 32-39), which the database enforces at commit
time: period_days > 0, correlation_value ∈ [-1, 1], p_value ∈ [0, 1],
sample_size > 0 and anomalies_detected ≥ 0. A record violating any of them
makes db.session.commit raise, deterministically. -/
def dbChecksPass (r : CorrelationResult) : Bool :=
  decide (0 < r.period_days)
    && rvalWithin r.correlation_value (-1) 1
    && rvalWithin r.p_value 0 1
    && decide (0 < r.sample_size)
    && decide (0 ≤ r.anomalies_detected)

/-- CorrelationService.analyze_correlation (lines 253-349): refuse (None) when
the aligned frame is empty; otherwise compute the full record and commit it.
The commit succeeds only when the record satisfies the table's CHECK
constraints (dbChecksPass) and the environment does not fail otherwise
(persistOk); on any commit failure the session is rolled back and the call
also returns None. -/
def analyze_correlation (pearsonr : List ℚ → List ℚ → Except Unit (RVal × RVal))
    (persistOk : Bool) (city symbol : String)
    (weather : List WeatherData) (stock : List StockData)
    (wv : WName) (sv : SName) : Option CorrelationResult :=
  if (align_time_series weather stock).isEmpty then none
  else if persistOk && dbChecksPass (buildResult pearsonr city symbol weather stock wv sv)
  then some (buildResult pearsonr city symbol weather stock wv sv)
  else none

/-- Population variance σ² = SS/n, the quantity scipy.stats.zscore uses with
its default ddof=0. -/
def popVariance (vals : List ℚ) : ℚ := seriesSS vals / (vals.length : ℚ)

/-- Sample variance s² = SS/(n-1) (Bessel correction, ddof=1). -/
def sampleVariance (vals : List ℚ) : ℚ := seriesSS vals / ((vals.length : ℚ) - 1)

/-- Anomaly criterion with the population standard deviation, stated as the
spec states the Z-score test: the standardized deviation exceeds 3 in
magnitude, i.e. σ² is positive and (x-μ)² > 9·σ². -/
def popAnomalous (vals : List ℚ) (x : ℚ) : Prop :=
  0 < popVariance vals ∧ 9 * popVariance vals < (x - seriesMean vals) ^ 2

/-- Anomaly criterion following the claim's words, with Z measured in units of
the sample standard deviation (ddof=1): s² is positive and (x-μ)² > 9·s². -/
def sampleAnomalous (vals : List ℚ) (x : ℚ) : Prop :=
  0 < sampleVariance vals ∧ 9 * sampleVariance vals < (x - seriesMean vals) ^ 2

/-- Alignment as the claim for the aligner words it: each market sample is the
primary record, matched to the weather sample with timestamp ≤ the market
timestamp that is nearest in absolute time (ties toward the earlier candidate
are vacuous among backward candidates), accepted only within a 12 hour gap;
market samples without a qualifying partner are dropped. -/
def specAlignMarketPrimary (weather : List WeatherData) (stock : List StockData) :
    List (StockRow × WeatherRow) :=
  let ws := sortByTime (fun r => r.timestamp) (weather.map weatherRow)
  (sortByTime (fun r => r.timestamp) (stock.map stockRow)).filterMap (fun s =>
    match lastLE (fun r => r.timestamp) s.timestamp ws with
    | some w => if s.timestamp - w.timestamp ≤ 43200 then some (s, w) else none
    | none => none)

/-- Stub for the external pearsonr collaborator, used in concrete runs where
its value is irrelevant (the scipy result on degenerate input is NaN). -/
def fStub : List ℚ → List ℚ → Except Unit (RVal × RVal) :=
  fun _ _ => Except.ok (RVal.nan, RVal.nan)

/-- A plain weather sample at t = 0 with nonzero temperature and wind. -/
def wEx : WeatherData := ⟨0, 20, 50, 0, 5⟩

/-- A plain stock sample at t = 0. -/
def sEx : StockData := ⟨0, 100, 101, 102, 99, 1000⟩

/-- A weather sample one hour after sEx, for the alignment-direction test. -/
def wLate : WeatherData := ⟨3600, 20, 50, 0, 5⟩

/-- A weather sample with wind_speed exactly 0 (temperature present). -/
def wWind0 : WeatherData := ⟨0, 20, 50, 0, 0⟩

/-- A weather sample with temperature exactly 0 (a valid measurement). -/
def wTemp0 : WeatherData := ⟨0, 0, 50, 0, 5⟩

/-- A stock sample at t = 0 whose open/high/low are 0, so that its derived
volatility and daily_change take the truthiness branch to the literal 0. -/
def sFlat : StockData := ⟨0, 0, 100, 0, 0, 1000⟩

/-- A second plain weather sample two days (172800 s) after wEx. -/
def wEx2 : WeatherData := ⟨172800, 21, 50, 0, 5⟩

/-- A second flat-derived stock sample two days after sFlat. -/
def sFlat2 : StockData := ⟨172800, 0, 101, 0, 0, 1000⟩

/-- The record produced by the two-row analysis of [wEx, wEx2] against
[sFlat, sFlat2]: two aligned points two days apart, neutral correlation from
the size guard, empty anomaly dict, period_days = 2 > 0, so every CHECK
constraint of the table holds and the commit can succeed. -/
def resEx2 : CorrelationResult :=
  { city := "boston"
    symbol := "AAPL"
    start_date := 0
    end_date := 172800
    period_days := 2
    correlation_value := RVal.val 0
    p_value := RVal.val 1
    sample_size := 2
    weather_variable := WName.temperature
    stock_variable := SName.close_price
    significance_level := "not significant"
    anomalies_detected := 0 }

/-- A one-column frame whose column has 12 points: mean 0, SS = 102, and the
point 9 at index 0 has population z = √(12·81/102) > 3 but sample
z = √(11·81/102) < 3. -/
def exFrame : String → List (Option ℚ) := fun c =>
  if c = "v" then
    [some 9, some (-2), some (-2), some (-2), some (-3),
     some 0, some 0, some 0, some 0, some 0, some 0, some 0]
  else []

/-- The example column as a plain list. -/
def exCol : List (Option ℚ) :=
  [some 9, some (-2), some (-2), some (-2), some (-3),
   some 0, some 0, some 0, some 0, some 0, some 0, some 0]

/-- The non-missing values of the example column. -/
def exVals : List ℚ := [9, -2, -2, -2, -3, 0, 0, 0, 0, 0, 0, 0]

theorem exMean : seriesMean exVals = 0 := by
  norm_num [seriesMean, exVals]

theorem exSS : seriesSS exVals = 102 := by
  rw [seriesSS, exMean]
  norm_num [exVals]

theorem exZ9 : zAnomalyPop exVals 9 = true := by
  rw [zAnomalyPop, exSS, exMean]
  rw [decide_eq_true_eq]
  norm_num [exVals]

theorem exZm2 : zAnomalyPop exVals (-2) = false := by
  rw [zAnomalyPop, exSS, exMean]
  rw [decide_eq_false_iff_not]
  norm_num [exVals]

theorem exZm3 : zAnomalyPop exVals (-3) = false := by
  rw [zAnomalyPop, exSS, exMean]
  rw [decide_eq_false_iff_not]
  norm_num [exVals]

theorem exZ0 : zAnomalyPop exVals 0 = false := by
  rw [zAnomalyPop, exSS, exMean]
  rw [decide_eq_false_iff_not]
  norm_num [exVals]

theorem exPres : presentPairs exCol =
    [(0,9),(1,-2),(2,-2),(3,-2),(4,-3),(5,0),(6,0),(7,0),(8,0),(9,0),(10,0),(11,0)] := by
  decide

theorem exPresVals :
    ([((0:Nat),(9:ℚ)),(1,-2),(2,-2),(3,-2),(4,-3),(5,0),(6,0),(7,0),(8,0),(9,0),(10,0),(11,0)].map
      Prod.snd) = exVals := by
  decide

theorem exColAnoms : colAnomalies exCol = [0] := by
  simp only [colAnomalies, exPres, exPresVals]
  simp [List.filter, exZ9, exZm2, exZm3, exZ0]

theorem exFrameCol : exFrame "v" = exCol := by decide

theorem exDetect : detect_anomalies ["v"] exFrame ["v"] "v" = some [0] := by
  simp only [detect_anomalies, detectStep, List.foldl, exFrameCol, exColAnoms]
  norm_num

theorem exNotSampleAnom : ¬ sampleAnomalous exVals 9 := by
  simp only [sampleAnomalous, sampleVariance, exSS, exMean]
  norm_num [exVals]

theorem exPopAnom : popAnomalous exVals 9 := by
  simp only [popAnomalous, popVariance, exSS, exMean]
  norm_num [exVals]

theorem mem_insertByTime (key : α → Int) (x a : α) (l : List α) :
    a ∈ insertByTime key x l ↔ a = x ∨ a ∈ l := by
  induction l with
  | nil => simp [insertByTime]
  | cons y ys ih =>
    by_cases h : key y ≤ key x
    · simp only [insertByTime, if_pos h, List.mem_cons, ih]
      tauto
    · simp only [insertByTime, if_neg h, List.mem_cons]

theorem sorted_insertByTime (key : α → Int) (x : α) (l : List α)
    (h : List.Pairwise (fun a b => key a ≤ key b) l) :
    List.Pairwise (fun a b => key a ≤ key b) (insertByTime key x l) := by
  induction l with
  | nil => simp [insertByTime]
  | cons y ys ih =>
    rcases List.pairwise_cons.mp h with ⟨hy, hys⟩
    by_cases hxy : key y ≤ key x
    · simp only [insertByTime, if_pos hxy]
      refine List.pairwise_cons.mpr ⟨?_, ih hys⟩
      intro b hb
      rcases (mem_insertByTime key x b ys).mp hb with rfl | hbys
      · exact hxy
      · exact hy b hbys
    · simp only [insertByTime, if_neg hxy]
      refine List.pairwise_cons.mpr ⟨?_, h⟩
      intro b hb
      rcases List.mem_cons.mp hb with rfl | hbys
      · exact le_of_lt (lt_of_not_le hxy)
      · exact le_trans (le_of_lt (lt_of_not_le hxy)) (hy b hbys)

theorem mem_foldl_insert (key : α → Int) (a : α) (l : List α) :
    ∀ acc : List α,
      (a ∈ l.foldl (fun acc x => insertByTime key x acc) acc ↔ a ∈ acc ∨ a ∈ l) := by
  induction l with
  | nil => intro acc; simp
  | cons x xs ih =>
    intro acc
    simp only [List.foldl_cons, ih, mem_insertByTime, List.mem_cons]
    tauto

theorem mem_sortByTime (key : α → Int) (a : α) (l : List α) :
    a ∈ sortByTime key l ↔ a ∈ l := by
  rw [sortByTime, mem_foldl_insert]
  simp

theorem sorted_foldl_insert (key : α → Int) (l : List α) :
    ∀ acc : List α, List.Pairwise (fun a b => key a ≤ key b) acc →
      List.Pairwise (fun a b => key a ≤ key b)
        (l.foldl (fun acc x => insertByTime key x acc) acc) := by
  induction l with
  | nil => intro acc h; exact h
  | cons x xs ih =>
    intro acc h
    exact ih _ (sorted_insertByTime key x acc h)

theorem sorted_sortByTime (key : α → Int) (l : List α) :
    List.Pairwise (fun a b => key a ≤ key b) (sortByTime key l) :=
  sorted_foldl_insert key l [] List.Pairwise.nil

theorem lastLE_none (key : α → Int) (t : Int) :
    ∀ l : List α, lastLE key t l = none → ∀ c ∈ l, t < key c := by
  intro l
  induction l with
  | nil => simp
  | cons x xs ih =>
    intro h c hc
    cases hx : lastLE key t xs with
    | some y =>
      simp only [lastLE, hx] at h
      exact Option.noConfusion h
    | none =>
      simp only [lastLE, hx] at h
      by_cases hxt : key x ≤ t
      · rw [if_pos hxt] at h; cases h
      · rcases List.mem_cons.mp hc with rfl | hcs
        · exact lt_of_not_le hxt
        · exact ih hx c hcs

theorem lastLE_some (key : α → Int) (t : Int) :
    ∀ l : List α, List.Pairwise (fun a b => key a ≤ key b) l →
      ∀ b, lastLE key t l = some b →
        b ∈ l ∧ key b ≤ t ∧ ∀ c ∈ l, key c ≤ t → key c ≤ key b := by
  intro l
  induction l with
  | nil => intro _ b h; simp [lastLE] at h
  | cons x xs ih =>
    intro hs b h
    rcases List.pairwise_cons.mp hs with ⟨hx, hxs⟩
    cases hlx : lastLE key t xs with
    | some y =>
      simp only [lastLE, hlx] at h
      injection h with hyb
      subst hyb
      rcases ih hxs y hlx with ⟨hmem, hle, hmax⟩
      refine ⟨List.mem_cons_of_mem _ hmem, hle, ?_⟩
      intro c hc hct
      rcases List.mem_cons.mp hc with rfl | hcs
      · exact hx y hmem
      · exact hmax c hcs hct
    | none =>
      simp only [lastLE, hlx] at h
      by_cases hxt : key x ≤ t
      · rw [if_pos hxt] at h
        injection h with hxb
        subst hxb
        refine ⟨List.mem_cons_self _ _, hxt, ?_⟩
        intro c hc hct
        rcases List.mem_cons.mp hc with rfl | hcs
        · exact le_refl _
        · exact absurd hct (not_le.mpr (lastLE_none key t xs hlx c hcs))
      · rw [if_neg hxt] at h; cases h

theorem firstGE_some (key : α → Int) (t : Int) :
    ∀ l : List α, List.Pairwise (fun a b => key a ≤ key b) l →
      ∀ b, firstGE key t l = some b →
        b ∈ l ∧ t ≤ key b ∧ ∀ c ∈ l, t ≤ key c → key b ≤ key c := by
  intro l
  induction l with
  | nil => intro _ b h; simp [firstGE] at h
  | cons x xs ih =>
    intro hs b h
    rcases List.pairwise_cons.mp hs with ⟨hx, hxs⟩
    by_cases hxt : t ≤ key x
    · simp only [firstGE, if_pos hxt] at h
      injection h with hxb
      subst hxb
      refine ⟨List.mem_cons_self _ _, hxt, ?_⟩
      intro c hc _
      rcases List.mem_cons.mp hc with rfl | hcs
      · exact le_refl _
      · exact hx c hcs
    · simp only [firstGE, if_neg hxt] at h
      rcases ih hxs b h with ⟨hmem, hle, hmin⟩
      refine ⟨List.mem_cons_of_mem _ hmem, hle, ?_⟩
      intro c hc hct
      rcases List.mem_cons.mp hc with rfl | hcs
      · exact absurd hct hxt
      · exact hmin c hcs hct

theorem firstGE_none (key : α → Int) (t : Int) :
    ∀ l : List α, firstGE key t l = none → ∀ c ∈ l, key c < t := by
  intro l
  induction l with
  | nil => simp
  | cons x xs ih =>
    intro h c hc
    by_cases hxt : t ≤ key x
    · simp only [firstGE, if_pos hxt] at h
      exact Option.noConfusion h
    · simp only [firstGE, if_neg hxt] at h
      rcases List.mem_cons.mp hc with rfl | hcs
      · exact lt_of_not_le hxt
      · exact ih h c hcs

theorem nearestWithin_some (key : α → Int) (tol t : Int) (l : List α)
    (hs : List.Pairwise (fun a b => key a ≤ key b) l) (b : α)
    (h : nearestWithin key tol t l = some b) :
    b ∈ l ∧ |key b - t| ≤ tol ∧
      ∀ c ∈ l, |key c - t| ≤ tol →
        |key b - t| ≤ |key c - t| ∧ (|key b - t| = |key c - t| → key b ≤ key c) := by
  have habsle : ∀ a : α, key a ≤ t → |key a - t| = t - key a := by
    intro a ha
    rw [abs_of_nonpos (by omega), neg_sub]
  have habsge : ∀ a : α, t ≤ key a → |key a - t| = key a - t := by
    intro a ha
    exact abs_of_nonneg (by omega)
  cases hb : lastLE key t l with
  | none =>
    cases hf : firstGE key t l with
    | none =>
      simp only [nearestWithin, hb, hf] at h
      exact Option.noConfusion h
    | some yf =>
      rcases firstGE_some key t l hs yf hf with ⟨hfmem, hfge, hfmin⟩
      by_cases hft : key yf - t ≤ tol
      · simp only [nearestWithin, hb, hf, if_pos hft] at h
        injection h with hfb
        subst hfb
        refine ⟨hfmem, by rw [habsge yf hfge]; exact hft, ?_⟩
        intro c hc hctol
        rcases le_or_lt (key c) t with hct | hct
        · exact absurd (lastLE_none key t l hb c hc) (by omega)
        · have hcge : t ≤ key c := le_of_lt hct
          have := hfmin c hc hcge
          rw [habsge yf hfge, habsge c hcge]
          constructor
          · omega
          · intro _; exact this
      · simp only [nearestWithin, hb, hf, if_neg hft] at h
        exact Option.noConfusion h
  | some yb =>
    rcases lastLE_some key t l hs yb hb with ⟨hbmem, hble, hbmax⟩
    cases hf : firstGE key t l with
    | none =>
      by_cases hbt : t - key yb ≤ tol
      · simp only [nearestWithin, hb, hf, if_pos hbt] at h
        injection h with hbb
        subst hbb
        refine ⟨hbmem, by rw [habsle yb hble]; exact hbt, ?_⟩
        intro c hc hctol
        rcases le_or_lt t (key c) with hct | hct
        · exact absurd (firstGE_none key t l hf c hc) (by omega)
        · have hcle : key c ≤ t := le_of_lt hct
          have := hbmax c hc hcle
          rw [habsle yb hble, habsle c hcle]
          constructor
          · omega
          · intro heq; omega
      · simp only [nearestWithin, hb, hf, if_neg hbt] at h
        exact Option.noConfusion h
    | some yf =>
      rcases firstGE_some key t l hs yf hf with ⟨hfmem, hfge, hfmin⟩
      by_cases hbt : t - key yb ≤ tol
      · by_cases hft : key yf - t ≤ tol
        · simp only [nearestWithin, hb, hf, if_pos hbt, if_pos hft] at h
          by_cases htie : t - key yb ≤ key yf - t
          · rw [if_pos htie] at h
            injection h with hbb
            subst hbb
            refine ⟨hbmem, by rw [habsle yb hble]; exact hbt, ?_⟩
            intro c hc hctol
            rcases le_or_lt (key c) t with hct | hct
            · have := hbmax c hc hct
              rw [habsle yb hble, habsle c hct]
              constructor
              · omega
              · intro heq; omega
            · have hcge : t ≤ key c := le_of_lt hct
              have := hfmin c hc hcge
              rw [habsle yb hble, habsge c hcge]
              constructor
              · omega
              · intro _; omega
          · rw [if_neg htie] at h
            injection h with hfb
            subst hfb
            refine ⟨hfmem, by rw [habsge yf hfge]; exact hft, ?_⟩
            intro c hc hctol
            rcases le_or_lt (key c) t with hct | hct
            · have := hbmax c hc hct
              rw [habsge yf hfge, habsle c hct] at *
              constructor
              · omega
              · intro heq; omega
            · have hcge : t ≤ key c := le_of_lt hct
              have := hfmin c hc hcge
              rw [habsge yf hfge, habsge c hcge]
              constructor
              · omega
              · intro _; exact this
        · simp only [nearestWithin, hb, hf, if_pos hbt, if_neg hft] at h
          injection h with hbb
          subst hbb
          refine ⟨hbmem, by rw [habsle yb hble]; exact hbt, ?_⟩
          intro c hc hctol
          rcases le_or_lt (key c) t with hct | hct
          · have := hbmax c hc hct
            rw [habsle yb hble, habsle c hct]
            constructor
            · omega
            · intro heq; omega
          · have hcge : t ≤ key c := le_of_lt hct
            have := hfmin c hc hcge
            rw [habsge c hcge] at hctol
            omega
      · by_cases hft : key yf - t ≤ tol
        · simp only [nearestWithin, hb, hf, if_neg hbt, if_pos hft] at h
          injection h with hfb
          subst hfb
          refine ⟨hfmem, by rw [habsge yf hfge]; exact hft, ?_⟩
          intro c hc hctol
          rcases le_or_lt (key c) t with hct | hct
          · have := hbmax c hc hct
            rw [habsle c hct] at hctol
            omega
          · have hcge : t ≤ key c := le_of_lt hct
            have := hfmin c hc hcge
            rw [habsge yf hfge, habsge c hcge]
            constructor
            · omega
            · intro _; exact this
        · simp only [nearestWithin, hb, hf, if_neg hbt, if_neg hft] at h
          exact Option.noConfusion h

theorem mem_mergedRows (weather : List WeatherData) (stock : List StockData) (r : AlignedRow) :
    r ∈ mergedRows weather stock ↔
      ∃ wr, wr ∈ sortByTime (fun x => x.timestamp) (weather.map weatherRow) ∧
        r = mergeRow wr (nearestWithin (fun x => x.timestamp) 43200 wr.timestamp
              (sortByTime (fun x => x.timestamp) (stock.map stockRow))) := by
  simp only [mergedRows, List.mem_map]
  constructor
  · rintro ⟨wr, hwr, rfl⟩
    exact ⟨wr, hwr, rfl⟩
  · rintro ⟨wr, hwr, rfl⟩
    exact ⟨wr, hwr, rfl⟩

theorem mergedRows_of_empty_stock (weather : List WeatherData) (r : AlignedRow)
    (hr : r ∈ mergedRows weather []) : r.close_price = none := by
  rcases (mem_mergedRows weather [] r).mp hr with ⟨wr, _, rfl⟩
  rfl

/-- C5 (amended): align_time_series drops after matching exactly those merged
rows that are missing temperature or close_price — the filter is fixed to
that one column pair, independent of the variable pair chosen for the
analysis. -/
theorem C5_fixed_critical_filter (weather : List WeatherData) (stock : List StockData) :
    (∀ r ∈ align_time_series weather stock,
        (r.temperature.isSome = true ∧ r.close_price.isSome = true)
          ∧ r ∈ mergedRows weather stock)
    ∧ (∀ r ∈ mergedRows weather stock,
        r.temperature.isSome = true → r.close_price.isSome = true →
          r ∈ align_time_series weather stock) := by
  by_cases hw : weather.isEmpty
  · constructor
    · intro r hr
      rw [align_time_series, if_pos (by simp [hw])] at hr
      cases hr
    · intro r hr _ _
      rw [List.isEmpty_iff] at hw
      subst hw
      simp [mergedRows, sortByTime] at hr
  · by_cases hst : stock.isEmpty
    · constructor
      · intro r hr
        rw [align_time_series, if_pos (by simp [hst])] at hr
        cases hr
      · intro r hr _ hC
        rw [List.isEmpty_iff] at hst
        subst hst
        rw [mergedRows_of_empty_stock weather r hr] at hC
        cases hC
    · have hcond : (weather.isEmpty || stock.isEmpty) = false := by
        simp [hw, hst]
      constructor
      · intro r hr
        rw [align_time_series, hcond] at hr
        simp only [Bool.false_eq_true, if_false] at hr
        rcases List.mem_filter.mp hr with ⟨hmem, hpred⟩
        rw [Bool.and_eq_true] at hpred
        exact ⟨⟨hpred.1, hpred.2⟩, hmem⟩
      · intro r hr hT hC
        rw [align_time_series, hcond]
        simp only [Bool.false_eq_true, if_false]
        exact List.mem_filter.mpr ⟨hr, by rw [Bool.and_eq_true]; exact ⟨hT, hC⟩⟩

/-- C5 counterexample: with the chosen pair (wind_speed, volume), the single
matched row is missing wind_speed (a field required for that pair) and yet
survives alignment; the claim requires it to be dropped. -/
theorem C5_counterexample :
    (align_time_series [wWind0] [sEx]).map (fun r => r.wind_speed) = [none] := by
  decide

/-- C10: a temperature or wind_speed equal to exactly 0 is converted to
missing by the DataFrame construction; every surviving aligned row has a
present temperature, and a weather set whose temperatures are all 0 aligns to
nothing at all. -/
theorem C10_zero_treated_missing :
    (∀ w : WeatherData, w.temperature = 0 → (weatherRow w).temperature = none)
    ∧ (∀ w : WeatherData, w.wind_speed = 0 → (weatherRow w).wind_speed = none)
    ∧ (∀ (weather : List WeatherData) (stock : List StockData),
        ∀ r ∈ align_time_series weather stock, r.temperature.isSome = true)
    ∧ (∀ (weather : List WeatherData) (stock : List StockData),
        (∀ w ∈ weather, w.temperature = 0) → align_time_series weather stock = []) := by
  refine ⟨?_, ?_, ?_, ?_⟩
  · intro w h; simp [weatherRow, h]
  · intro w h; simp [weatherRow, h]
  · intro weather stock r hr
    exact ((C5_fixed_critical_filter weather stock).1 r hr).1.1
  · intro weather stock hall
    rw [align_time_series]
    split
    · rfl
    · apply List.filter_eq_nil_iff.mpr
      intro r hr
      rcases (mem_mergedRows weather stock r).mp hr with ⟨wr, hwr, rfl⟩
      rcases List.mem_map.mp ((mem_sortByTime _ wr _).mp hwr) with ⟨w, hwmem, rfl⟩
      have h0 : (weatherRow w).temperature = none := by
        simp [weatherRow, hall w hwmem]
      simp [mergeRow, h0]

/-- C2 (amended): every aligned row is one weather sample (the primary, left
series of the asof merge) paired with a stock sample that is nearest in
absolute time among all stock samples within the 12 hour tolerance, in either
temporal direction, with an exact-equidistance tie broken toward the earlier
stock sample. -/
theorem C2_weather_primary_nearest (weather : List WeatherData) (stock : List StockData)
    (r : AlignedRow) (hr : r ∈ align_time_series weather stock) :
    ∃ w ∈ weather, ∃ s ∈ stock,
      r = mergeRow (weatherRow w) (some (stockRow s)) ∧
      |s.timestamp - w.timestamp| ≤ 43200 ∧
      ∀ s2 ∈ stock, |s2.timestamp - w.timestamp| ≤ 43200 →
        |s.timestamp - w.timestamp| ≤ |s2.timestamp - w.timestamp| ∧
        (|s.timestamp - w.timestamp| = |s2.timestamp - w.timestamp| →
          s.timestamp ≤ s2.timestamp) := by
  rcases (C5_fixed_critical_filter weather stock).1 r hr with ⟨⟨_, hC⟩, hmem⟩
  rcases (mem_mergedRows weather stock r).mp hmem with ⟨wr, hwr, rfl⟩
  rcases List.mem_map.mp ((mem_sortByTime _ wr _).mp hwr) with ⟨w, hwmem, rfl⟩
  cases hm : nearestWithin (fun x => x.timestamp) 43200 (weatherRow w).timestamp
      (sortByTime (fun x => x.timestamp) (stock.map stockRow)) with
  | none =>
    rw [hm] at hC
    cases hC
  | some srow =>
    rw [hm] at hC
    rcases nearestWithin_some (fun x => x.timestamp) 43200 (weatherRow w).timestamp
        (sortByTime (fun x => x.timestamp) (stock.map stockRow))
        (sorted_sortByTime _ _) srow hm with ⟨hsmem, hdist, hopt⟩
    rcases List.mem_map.mp ((mem_sortByTime _ srow _).mp hsmem) with ⟨s, hsmem2, rfl⟩
    refine ⟨w, hwmem, s, hsmem2, rfl, hdist, ?_⟩
    intro s2 hs2 hs2tol
    have hs2row : stockRow s2 ∈ sortByTime (fun x => x.timestamp) (stock.map stockRow) :=
      (mem_sortByTime _ _ _).mpr (List.mem_map.mpr ⟨s2, hs2, rfl⟩)
    exact hopt (stockRow s2) hs2row hs2tol

/-- C2 counterexample: weather at t = 3600 s, stock at t = 0. Under the
claim's matching (market primary, weather candidates restricted to timestamps
≤ the market timestamp) the market sample has no qualifying partner and the
output is empty; the code's merge (weather primary, nearest in either
direction) keeps one row, whose timestamp is the weather timestamp 3600. -/
theorem C2_counterexample :
    specAlignMarketPrimary [wLate] [sEx] = []
    ∧ (align_time_series [wLate] [sEx]).map (fun r => r.timestamp) = [3600] := by
  decide

theorem detect_foldl (dataCols : List String) (frame : String → List (Option ℚ)) :
    ∀ (columns : List String) (acc : String → Option (List Nat)) (c : String),
      columns.foldl (detectStep dataCols frame) acc c =
        if c ∈ columns ∧ c ∈ dataCols ∧ ¬(colAnomalies (frame c)).isEmpty = true
        then some (colAnomalies (frame c)) else acc c := by
  intro columns
  induction columns with
  | nil =>
    intro acc c
    simp
  | cons col rest ih =>
    intro acc c
    rw [List.foldl_cons, ih]
    by_cases hc : c = col
    · subst hc
      by_cases hd : c ∈ dataCols
      · by_cases he : (colAnomalies (frame c)).isEmpty = true
        · have hP : ¬(c ∈ dataCols ∧ ¬(colAnomalies (frame c)).isEmpty = true) := by
            intro hcontra; exact hcontra.2 he
          rw [detectStep, if_pos hd, if_pos he]
          by_cases hr : c ∈ rest
          · simp [hr, hd, he]
          · simp [hr, hd, he]
        · rw [detectStep, if_pos hd, if_neg he]
          by_cases hr : c ∈ rest
          · simp [hr, hd, he]
          · simp [hr, hd, he]
      · rw [detectStep, if_neg hd]
        simp [hd]
    · have hstep : detectStep dataCols frame acc col c = acc c := by
        rw [detectStep]
        by_cases hd : col ∈ dataCols
        · rw [if_pos hd]
          by_cases he : (colAnomalies (frame col)).isEmpty = true
          · rw [if_pos he]
          · rw [if_neg he, if_neg hc]
        · rw [if_neg hd]
      rw [hstep]
      have hmem : (c ∈ col :: rest) ↔ (c ∈ rest) := by
        simp [List.mem_cons, hc]
      by_cases hr : c ∈ rest ∧ c ∈ dataCols ∧ ¬(colAnomalies (frame c)).isEmpty = true
      · rw [if_pos hr, if_pos ⟨hmem.mpr hr.1, hr.2⟩]
      · rw [if_neg hr, if_neg (by rw [hmem]; exact hr)]

theorem detect_anomalies_eval (dataCols : List String) (frame : String → List (Option ℚ))
    (columns : List String) (c : String) :
    detect_anomalies dataCols frame columns c =
      if c ∈ columns ∧ c ∈ dataCols ∧ ¬(colAnomalies (frame c)).isEmpty = true
      then some (colAnomalies (frame c)) else none := by
  rw [detect_anomalies, detect_foldl]

theorem mem_colAnomalies (xs : List (Option ℚ)) (i : Nat)
    (h : 10 ≤ (presentPairs xs).length) :
    i ∈ colAnomalies xs ↔
      ∃ v, (i, v) ∈ presentPairs xs ∧ zAnomalyPop (presentVals xs) v = true := by
  rw [colAnomalies]
  simp only [if_neg (by omega : ¬(presentPairs xs).length < 10)]
  constructor
  · intro hi
    rcases List.mem_map.mp hi with ⟨pr, hpr, hfst⟩
    rcases List.mem_filter.mp hpr with ⟨hmem, hpred⟩
    refine ⟨pr.2, ?_, hpred⟩
    rw [← hfst]
    exact hmem
  · rintro ⟨v, hmem, hpred⟩
    exact List.mem_map.mpr ⟨(i, v), List.mem_filter.mpr ⟨hmem, hpred⟩, rfl⟩

theorem zAnomalyPop_iff (vals : List ℚ) (x : ℚ) (hx : x ∈ vals) :
    zAnomalyPop vals x = true ↔ popAnomalous vals x := by
  have hn0 : 0 < vals.length := List.length_pos.mpr (List.ne_nil_of_mem hx)
  have hn : (0 : ℚ) < (vals.length : ℚ) := by exact_mod_cast hn0
  have hssnn : 0 ≤ seriesSS vals := by
    apply List.sum_nonneg
    intro a ha
    rcases List.mem_map.mp ha with ⟨v, _, rfl⟩
    positivity
  have hterm : (x - seriesMean vals) ^ 2 ≤ seriesSS vals := by
    apply List.single_le_sum
    · intro a ha
      rcases List.mem_map.mp ha with ⟨v, _, rfl⟩
      positivity
    · exact List.mem_map.mpr ⟨x, hx, rfl⟩
  rw [zAnomalyPop, decide_eq_true_eq, popAnomalous, popVariance]
  constructor
  · intro hlt
    have hsspos : 0 < seriesSS vals := by
      rcases lt_or_eq_of_le hssnn with hpos | hzero
      · exact hpos
      · exfalso
        rw [← hzero] at hlt
        have : (x - seriesMean vals) ^ 2 ≤ 0 := by rw [← hzero] at hterm; exact hterm
        nlinarith
    refine ⟨div_pos hsspos hn, ?_⟩
    rw [mul_div_assoc' 9 (seriesSS vals) ((vals.length : ℚ)), div_lt_iff₀ hn]
    linarith [hlt]
  · rintro ⟨hpos, hlt⟩
    rw [mul_div_assoc' 9 (seriesSS vals) ((vals.length : ℚ)), div_lt_iff₀ hn] at hlt
    linarith [hlt]

/-- C6 (amended): for a requested variable present in the frame with at least
10 non-missing values, detect_anomalies flags exactly the points whose
deviation from the variable's mean exceeds 3 population standard deviations
(scipy zscore, ddof=0), and the returned mapping holds exactly the requested
variables with at least one such point. -/
theorem C6_population_zscore (dataCols : List String) (frame : String → List (Option ℚ))
    (columns : List String) (col : String)
    (h1 : col ∈ columns) (h2 : col ∈ dataCols)
    (h3 : 10 ≤ (presentPairs (frame col)).length) :
    (∀ i : Nat,
        (∃ idxs, detect_anomalies dataCols frame columns col = some idxs ∧ i ∈ idxs)
        ↔ ∃ v, (i, v) ∈ presentPairs (frame col)
            ∧ popAnomalous (presentVals (frame col)) v)
    ∧ ((detect_anomalies dataCols frame columns col).isSome = true
        ↔ ∃ i v, (i, v) ∈ presentPairs (frame col)
            ∧ popAnomalous (presentVals (frame col)) v) := by
  have hiff : ∀ i v, ((i, v) ∈ presentPairs (frame col) →
      (zAnomalyPop (presentVals (frame col)) v = true ↔
        popAnomalous (presentVals (frame col)) v)) := by
    intro i v hmem
    apply zAnomalyPop_iff
    rw [presentVals]
    exact List.mem_map.mpr ⟨(i, v), hmem, rfl⟩
  have hflag : ∀ i : Nat, (i ∈ colAnomalies (frame col) ↔
      ∃ v, (i, v) ∈ presentPairs (frame col)
        ∧ popAnomalous (presentVals (frame col)) v) := by
    intro i
    rw [mem_colAnomalies (frame col) i h3]
    constructor
    · rintro ⟨v, hmem, hz⟩
      exact ⟨v, hmem, (hiff i v hmem).mp hz⟩
    · rintro ⟨v, hmem, hz⟩
      exact ⟨v, hmem, (hiff i v hmem).mpr hz⟩
  rw [detect_anomalies_eval]
  by_cases he : (colAnomalies (frame col)).isEmpty = true
  · have hnone : ¬(col ∈ columns ∧ col ∈ dataCols ∧
        ¬(colAnomalies (frame col)).isEmpty = true) := by
      intro hcontra
      exact hcontra.2.2 he
    rw [if_neg hnone]
    have hnil : colAnomalies (frame col) = [] := by
      rwa [List.isEmpty_iff] at he
    constructor
    · intro i
      constructor
      · rintro ⟨idxs, hsome, _⟩
        cases hsome
      · rintro ⟨v, hmem, hz⟩
        have : i ∈ colAnomalies (frame col) := (hflag i).mpr ⟨v, hmem, hz⟩
        rw [hnil] at this
        cases this
    · constructor
      · intro hsome
        cases hsome
      · rintro ⟨i, v, hmem, hz⟩
        have : i ∈ colAnomalies (frame col) := (hflag i).mpr ⟨v, hmem, hz⟩
        rw [hnil] at this
        cases this
  · rw [if_pos ⟨h1, h2, he⟩]
    constructor
    · intro i
      constructor
      · rintro ⟨idxs, hsome, hi⟩
        injection hsome with hsome
        subst hsome
        exact (hflag i).mp hi
      · intro hv
        exact ⟨colAnomalies (frame col), rfl, (hflag i).mpr hv⟩
    · constructor
      · intro _
        have hne : colAnomalies (frame col) ≠ [] := by
          intro hnil
          rw [hnil] at he
          exact he rfl
        rcases List.exists_mem_of_ne_nil _ hne with ⟨i, hi⟩
        rcases (hflag i).mp hi with ⟨v, hmem, hz⟩
        exact ⟨i, v, hmem, hz⟩
      · intro _
        rfl

theorem sigLevel_val_one : sigLevel (RVal.val 1) = "not significant" := by
  rw [sigLevel]
  norm_num [RVal.ltQ]

theorem analyzeEx_eval :
    analyze_correlation fStub true "boston" "AAPL" [wEx, wEx2] [sFlat, sFlat2]
      WName.temperature SName.close_price = some resEx2 := by
  have hcalc : calculate_correlation fStub
      ((align_time_series [wEx, wEx2] [sFlat, sFlat2]).map (wcol WName.temperature))
      ((align_time_series [wEx, wEx2] [sFlat, sFlat2]).map (scol SName.close_price))
      = (RVal.val 0, RVal.val 1) := by decide
  have hbuild : buildResult fStub "boston" "AAPL" [wEx, wEx2] [sFlat, sFlat2]
      WName.temperature SName.close_price = resEx2 := by
    rw [buildResult]
    simp only [hcalc, sigLevel_val_one]
    decide
  rw [analyze_correlation, if_neg (by decide), hbuild,
    if_pos (show (true && dbChecksPass resEx2) = true by decide)]

theorem foldl_min_le_foldl_max (ts : List Int) :
    ∀ a b : Int, a ≤ b → ts.foldl min a ≤ ts.foldl max b := by
  induction ts with
  | nil => intro a b h; exact h
  | cons x xs ih =>
    intro a b h
    simp only [List.foldl_cons]
    exact ih (min a x) (max b x)
      (le_trans (min_le_left a x) (le_trans h (le_max_left b x)))

theorem tsMin_le_tsMax (l : List Int) (h : l ≠ []) : tsMin l ≤ tsMax l := by
  cases l with
  | nil => exact absurd rfl h
  | cons t ts => exact foldl_min_le_foldl_max ts t t (le_refl t)

/-- C9: on every successful analysis the reported period_days is the floored
whole-day difference between the maximum and minimum aligned timestamps (not
the caller-supplied window), and it is never negative. -/
theorem C9_period_days_from_aligned
    (pearsonr : List ℚ → List ℚ → Except Unit (RVal × RVal)) (persistOk : Bool)
    (city symbol : String) (weather : List WeatherData) (stock : List StockData)
    (wv : WName) (sv : SName) (res : CorrelationResult)
    (h : analyze_correlation pearsonr persistOk city symbol weather stock wv sv = some res) :
    res.period_days =
      Int.fdiv (tsMax ((align_time_series weather stock).map AlignedRow.timestamp)
        - tsMin ((align_time_series weather stock).map AlignedRow.timestamp)) 86400
    ∧ 0 ≤ res.period_days := by
  rw [analyze_correlation] at h
  by_cases he : (align_time_series weather stock).isEmpty
  · rw [if_pos he] at h
    cases h
  · rw [if_neg he] at h
    by_cases hp : (persistOk
        && dbChecksPass (buildResult pearsonr city symbol weather stock wv sv)) = true
    · rw [if_pos hp] at h
      injection h with h
      subst h
      have hne : (align_time_series weather stock).map AlignedRow.timestamp ≠ [] := by
        intro hnil
        rw [List.map_eq_nil_iff] at hnil
        rw [hnil] at he
        exact he rfl
      constructor
      · rfl
      · exact Int.fdiv_nonneg
          (by linarith [tsMin_le_tsMax _ hne]) (by norm_num)
    · rw [if_neg hp] at h
      cases h

/-- C9 witness: the concrete one-point analysis succeeds and its period_days
is 0, the floored day difference of a single timestamp. -/
theorem C9_period_days_from_aligned_witness :
    (analyze_correlation fStub true "boston" "AAPL" [wEx, wEx2] [sFlat, sFlat2]
      WName.temperature SName.close_price = some resEx2)
    ∧ (resEx2.period_days =
        Int.fdiv
          (tsMax ((align_time_series [wEx, wEx2] [sFlat, sFlat2]).map AlignedRow.timestamp)
            - tsMin ((align_time_series [wEx, wEx2] [sFlat, sFlat2]).map
                AlignedRow.timestamp)) 86400
      ∧ 0 ≤ resEx2.period_days) :=
  ⟨analyzeEx_eval,
    C9_period_days_from_aligned fStub true "boston" "AAPL" [wEx, wEx2] [sFlat, sFlat2]
      WName.temperature SName.close_price resEx2 analyzeEx_eval⟩

/-- C1 (amended): a result record is produced exactly when the alignment is
nonempty, the packaged record passes the table's CHECK constraints — in
particular period_days > 0, so the aligned span must cover at least one whole
day — and the commit otherwise succeeds. The record's sample_size equals the
aligned row count: at least 1, but not necessarily 10, so the claimed
"sample_size ≥ 10 or refused" invariant fails for any 2-to-9-row alignment
spanning at least one day. -/
theorem C1_sample_size_is_aligned_count
    (pearsonr : List ℚ → List ℚ → Except Unit (RVal × RVal)) (persistOk : Bool)
    (city symbol : String) (weather : List WeatherData) (stock : List StockData)
    (wv : WName) (sv : SName) (res : CorrelationResult)
    (h : analyze_correlation pearsonr persistOk city symbol weather stock wv sv = some res) :
    res.sample_size = (align_time_series weather stock).length
    ∧ 1 ≤ res.sample_size
    ∧ 0 < res.period_days := by
  rw [analyze_correlation] at h
  by_cases he : (align_time_series weather stock).isEmpty
  · rw [if_pos he] at h
    cases h
  · rw [if_neg he] at h
    by_cases hp : (persistOk
        && dbChecksPass (buildResult pearsonr city symbol weather stock wv sv)) = true
    · have hchecks : dbChecksPass (buildResult pearsonr city symbol weather stock wv sv)
          = true := by
        rw [Bool.and_eq_true] at hp
        exact hp.2
      rw [if_pos hp] at h
      injection h with h
      subst h
      rw [dbChecksPass] at hchecks
      simp only [Bool.and_eq_true, decide_eq_true_eq] at hchecks
      refine ⟨rfl, ?_, hchecks.1.1.1.1⟩
      have hnil : align_time_series weather stock ≠ [] := by
        intro hnil
        rw [hnil] at he
        exact he rfl
      have hpos := List.length_pos.mpr hnil
      simpa [buildResult] using hpos
    · rw [if_neg hp] at h
      cases h

/-- C1 counterexample: a 2-row alignment spanning two days passes every CHECK
constraint of the table (period_days = 2 > 0, neutral r = 0 and p = 1 in
range, sample_size = 2 > 0), so the commit succeeds and a stored result
record with sample_size = 2 < 10 is returned; the claim says an alignment of
fewer than 10 rows never yields a result record. -/
theorem C1_counterexample :
    (align_time_series [wEx, wEx2] [sFlat, sFlat2]).length = 2
    ∧ (analyze_correlation fStub true "boston" "AAPL" [wEx, wEx2] [sFlat, sFlat2]
        WName.temperature SName.close_price).map (fun r => r.sample_size) = some 2
    ∧ (analyze_correlation fStub true "boston" "AAPL" [wEx, wEx2] [sFlat, sFlat2]
        WName.temperature SName.close_price).map (fun r => r.period_days) = some 2 := by
  refine ⟨by decide, ?_, ?_⟩
  · rw [analyzeEx_eval]
    decide
  · rw [analyzeEx_eval]
    decide

/-- C1 amended witness at the concrete two-row run. -/
theorem C1_sample_size_is_aligned_count_witness :
    resEx2.sample_size = (align_time_series [wEx, wEx2] [sFlat, sFlat2]).length
    ∧ 1 ≤ resEx2.sample_size
    ∧ 0 < resEx2.period_days :=
  C1_sample_size_is_aligned_count fStub true "boston" "AAPL" [wEx, wEx2] [sFlat, sFlat2]
    WName.temperature SName.close_price resEx2 analyzeEx_eval

/-- C7 (amended): when persistence fails the call returns None for every
input — exactly the same refusal value as the insufficient-data case, so the
two failure modes are not distinguishable by the caller and the computed
result is not returned. -/
theorem C7_persistence_failure_returns_none
    (pearsonr : List ℚ → List ℚ → Except Unit (RVal × RVal))
    (city symbol : String) (weather : List WeatherData) (stock : List StockData)
    (wv : WName) (sv : SName) :
    analyze_correlation pearsonr false city symbol weather stock wv sv = none := by
  rw [analyze_correlation]
  by_cases he : (align_time_series weather stock).isEmpty
  · rw [if_pos he]
  · rw [if_neg he]
    simp

/-- C7 counterexample: a run whose alignment has one row (the computation
succeeds) returns None when persistence fails — the identical observable to
the empty-input refusal — and no CorrelationResult reaches the caller. -/
theorem C7_counterexample :
    analyze_correlation fStub false "boston" "AAPL" [wEx] [sFlat]
      WName.temperature SName.close_price = none
    ∧ analyze_correlation fStub true "boston" "AAPL" [] []
        WName.temperature SName.close_price = none
    ∧ (align_time_series [wEx] [sFlat]).length = 1 := by
  refine ⟨?_, ?_, ?_⟩
  · decide
  · decide
  · decide

/-- C4: whenever either input series has fewer than 10 entries, or fewer than
10 paired non-missing values survive the paired NaN removal, the calculator
returns exactly the neutral (0.0, 1.0) without consulting pearsonr. -/
theorem C4_insufficient_data_neutral
    (pearsonr : List ℚ → List ℚ → Except Unit (RVal × RVal))
    (x y : List (Option ℚ))
    (h : x.length < 10 ∨ y.length < 10 ∨ (cleanPairs x y).length < 10) :
    calculate_correlation pearsonr x y = (RVal.val 0, RVal.val 1) := by
  rw [calculate_correlation]
  by_cases h1 : x.length < min_sample_size ∨ y.length < min_sample_size
  · rw [if_pos h1]
  · rw [if_neg h1]
    have h2 : (cleanPairs x y).length < min_sample_size := by
      rcases h with h | h | h
      · exact absurd (Or.inl h) h1
      · exact absurd (Or.inr h) h1
      · exact h
    rw [if_pos h2]

/-- C4 witness: two 3-entry series give exactly (0.0, 1.0). -/
theorem C4_insufficient_data_neutral_witness :
    ((List.replicate 3 (some (5:ℚ))).length < 10 ∨
        (List.replicate 3 (some (5:ℚ))).length < 10 ∨
        (cleanPairs (List.replicate 3 (some (5:ℚ))) (List.replicate 3 (some 5))).length < 10)
    ∧ calculate_correlation fStub (List.replicate 3 (some 5)) (List.replicate 3 (some 5))
        = (RVal.val 0, RVal.val 1) :=
  ⟨Or.inl (by decide),
    C4_insufficient_data_neutral fStub _ _ (Or.inl (by decide))⟩

/-- C3 (code behavior at the failing input): a constant pair of series of
length 10 passes both size guards unchanged, so the result is whatever the
external pearsonr returns. scipy.stats.pearsonr does not raise on constant
input — it emits ConstantInputWarning and returns (nan, nan) — so the
except-branch neutral (0.0, 1.0) is never produced and the caller receives
NaN, contradicting the claim. -/
theorem C3_constant_series_reaches_pearsonr
    (pearsonr : List ℚ → List ℚ → Except Unit (RVal × RVal))
    (h : pearsonr (List.replicate 10 5) (List.replicate 10 5)
        = Except.ok (RVal.nan, RVal.nan)) :
    calculate_correlation pearsonr (List.replicate 10 (some 5))
        (List.replicate 10 (some 5)) = (RVal.nan, RVal.nan)
    ∧ (RVal.nan, RVal.nan) ≠ (RVal.val 0, RVal.val 1) := by
  constructor
  · rw [calculate_correlation]
    rw [if_neg (by decide)]
    rw [if_neg (by decide)]
    have hfst : ((cleanPairs (List.replicate 10 (some (5:ℚ)))
        (List.replicate 10 (some 5))).map Prod.fst) = List.replicate 10 5 := by decide
    have hsnd : ((cleanPairs (List.replicate 10 (some (5:ℚ)))
        (List.replicate 10 (some 5))).map Prod.snd) = List.replicate 10 5 := by decide
    rw [hfst, hsnd, h]
  · intro hcontra
    injection hcontra with h1 h2
    cases h1

/-- C3 witness with the NaN-returning pearsonr stub. -/
theorem C3_constant_series_reaches_pearsonr_witness :
    fStub (List.replicate 10 5) (List.replicate 10 5) = Except.ok (RVal.nan, RVal.nan)
    ∧ (calculate_correlation fStub (List.replicate 10 (some 5))
          (List.replicate 10 (some 5)) = (RVal.nan, RVal.nan)
      ∧ (RVal.nan, RVal.nan) ≠ (RVal.val 0, RVal.val 1)) :=
  ⟨rfl, C3_constant_series_reaches_pearsonr fStub rfl⟩

/-- C8: the insight labels implement exactly the documented thresholds —
strength from |r| alone (0.7 / 0.4 / 0.2), direction from r alone with the
±0.05 deadband, and significance from p alone (0.001 / 0.01 / 0.05 / 0.1),
the strength and significance classifications being functions of different
arguments and hence independent. -/
theorem C8_bucket_thresholds (r p : ℚ) :
    (insightStrength r = "strong" ↔ (0.7:ℚ) ≤ |r|)
    ∧ (insightStrength r = "moderate" ↔ (0.4:ℚ) ≤ |r| ∧ |r| < 0.7)
    ∧ (insightStrength r = "weak" ↔ (0.2:ℚ) ≤ |r| ∧ |r| < 0.4)
    ∧ (insightStrength r = "very weak" ↔ |r| < 0.2)
    ∧ (insightDirection r = "positive" ↔ (0.05:ℚ) < r)
    ∧ (insightDirection r = "negative" ↔ r < -(0.05:ℚ))
    ∧ (insightDirection r = "negligible" ↔ -(0.05:ℚ) ≤ r ∧ r ≤ 0.05)
    ∧ (insightSignificance p = "very highly significant" ↔ p < 0.001)
    ∧ (insightSignificance p = "highly significant" ↔ (0.001:ℚ) ≤ p ∧ p < 0.01)
    ∧ (insightSignificance p = "significant" ↔ (0.01:ℚ) ≤ p ∧ p < 0.05)
    ∧ (insightSignificance p = "marginally significant" ↔ (0.05:ℚ) ≤ p ∧ p < 0.1)
    ∧ (insightSignificance p = "not statistically significant" ↔ (0.1:ℚ) ≤ p)
    ∧ (get_significance_category (some p) = "very_high" ↔ p < 0.001)
    ∧ (get_significance_category (some p) = "high" ↔ (0.001:ℚ) ≤ p ∧ p < 0.01)
    ∧ (get_significance_category (some p) = "medium" ↔ (0.01:ℚ) ≤ p ∧ p < 0.05)
    ∧ (get_significance_category (some p) = "low" ↔ (0.05:ℚ) ≤ p ∧ p < 0.1)
    ∧ (get_significance_category (some p) = "none" ↔ (0.1:ℚ) ≤ p) := by
  refine ⟨?_, ?_, ?_, ?_, ?_, ?_, ?_, ?_, ?_, ?_, ?_, ?_, ?_, ?_, ?_, ?_, ?_⟩
  · rw [insightStrength]; split_ifs <;> simp_all <;> try (intros; linarith)
  · rw [insightStrength]; split_ifs <;> simp_all <;> try (intros; linarith)
  · rw [insightStrength]; split_ifs <;> simp_all <;> try (intros; linarith)
  · rw [insightStrength]; split_ifs <;> simp_all <;> try (intros; linarith)
  · rw [insightDirection]; split_ifs <;> simp_all <;> try (intros; linarith)
  · rw [insightDirection]; split_ifs <;> simp_all <;> try (intros; linarith)
  · rw [insightDirection]; split_ifs <;> simp_all <;> try (intros; linarith)
  · rw [insightSignificance]; split_ifs <;> simp_all <;> try (intros; linarith)
  · rw [insightSignificance]; split_ifs <;> simp_all <;> try (intros; linarith)
  · rw [insightSignificance]; split_ifs <;> simp_all <;> try (intros; linarith)
  · rw [insightSignificance]; split_ifs <;> simp_all <;> try (intros; linarith)
  · rw [insightSignificance]; split_ifs <;> simp_all <;> try (intros; linarith)
  · simp only [get_significance_category]; split_ifs <;> simp_all <;> try (intros; linarith)
  · simp only [get_significance_category]; split_ifs <;> simp_all <;> try (intros; linarith)
  · simp only [get_significance_category]; split_ifs <;> simp_all <;> try (intros; linarith)
  · simp only [get_significance_category]; split_ifs <;> simp_all <;> try (intros; linarith)
  · simp only [get_significance_category]; split_ifs <;> simp_all <;> try (intros; linarith)

/-- C6 counterexample: in the 12-point column the point 9 at index 0 is
flagged by the code (population z = √(972/102·…) > 3) although its Z-score in
units of the sample standard deviation (ddof = 1) is below 3, so the claimed
sample-standard-deviation criterion does not describe detect_anomalies. -/
theorem C6_counterexample :
    detect_anomalies ["v"] exFrame ["v"] "v" = some [0]
    ∧ (exFrame "v").head? = some (some 9)
    ∧ 10 ≤ (presentPairs (exFrame "v")).length
    ∧ ¬ sampleAnomalous (presentVals (exFrame "v")) 9 := by
  refine ⟨exDetect, by decide, by decide, ?_⟩
  have h : presentVals (exFrame "v") = exVals := by decide
  rw [h]
  exact exNotSampleAnom

/-- C6 amended witness on the concrete frame. -/
theorem C6_population_zscore_witness :
    (∀ i : Nat,
        (∃ idxs, detect_anomalies ["v"] exFrame ["v"] "v" = some idxs ∧ i ∈ idxs)
        ↔ ∃ v, (i, v) ∈ presentPairs (exFrame "v")
            ∧ popAnomalous (presentVals (exFrame "v")) v)
    ∧ ((detect_anomalies ["v"] exFrame ["v"] "v").isSome = true
        ↔ ∃ i v, (i, v) ∈ presentPairs (exFrame "v")
            ∧ popAnomalous (presentVals (exFrame "v")) v) :=
  C6_population_zscore ["v"] exFrame ["v"] "v" (by decide) (by decide) (by decide)

/-- C5 amended witness: the surviving row of the wWind0/sFlat alignment has
temperature and close_price present and comes from the merged frame. -/
theorem C5_fixed_critical_filter_witness :
    ((mergeRow (weatherRow wWind0) (some (stockRow sFlat))).temperature.isSome = true
      ∧ (mergeRow (weatherRow wWind0) (some (stockRow sFlat))).close_price.isSome = true)
    ∧ mergeRow (weatherRow wWind0) (some (stockRow sFlat)) ∈ mergedRows [wWind0] [sFlat] :=
  (C5_fixed_critical_filter [wWind0] [sFlat]).1
    (mergeRow (weatherRow wWind0) (some (stockRow sFlat))) (by decide)

/-- C10 witness: the zero-temperature sample maps to a missing temperature
and its alignment output is empty. -/
theorem C10_zero_treated_missing_witness :
    (weatherRow wTemp0).temperature = none
    ∧ align_time_series [wTemp0] [sFlat] = [] :=
  ⟨C10_zero_treated_missing.1 wTemp0 rfl,
    C10_zero_treated_missing.2.2.2 [wTemp0] [sFlat] (by decide)⟩

/-- C2 amended witness: the single aligned row of the wLate/sFlat run pairs
the weather sample (primary) with its nearest in-tolerance stock sample. -/
theorem C2_weather_primary_nearest_witness :
    ∃ w ∈ [wLate], ∃ s ∈ [sFlat],
      mergeRow (weatherRow wLate) (some (stockRow sFlat))
        = mergeRow (weatherRow w) (some (stockRow s)) ∧
      |s.timestamp - w.timestamp| ≤ 43200 ∧
      ∀ s2 ∈ [sFlat], |s2.timestamp - w.timestamp| ≤ 43200 →
        |s.timestamp - w.timestamp| ≤ |s2.timestamp - w.timestamp| ∧
        (|s.timestamp - w.timestamp| = |s2.timestamp - w.timestamp| →
          s.timestamp ≤ s2.timestamp) :=
  C2_weather_primary_nearest [wLate] [sFlat]
    (mergeRow (weatherRow wLate) (some (stockRow sFlat))) (by decide)
